import Mathlib

/-!
Verification of the lead-generation pipeline in `app.py`.

The source is a small synchronous pipeline: search for URLs, extract
structured user interactions per URL, flatten the nested results into
tabular records, and pick a Gemini model id. Network calls are modelled
as oracles (explicit function parameters); raised exceptions are a
dedicated constructor of the oracle's response type. Dictionaries with
optional keys are modelled with `Option` fields and `.get(key, default)`
becomes `Option.getD`.
-/

namespace LeadGen

/-- A raw interaction dict as returned inside the extraction response's
`data.interactions`. Every key may be absent (`none`), matching
`interaction.get(key, default)` in `format_user_info_to_flattened_json`. -/
structure Interaction where
  username : Option String
  bio : Option String
  post_type : Option String
  timestamp : Option String
  upvotes : Option Int
  links : Option (List String)
  deriving Repr, DecidableEq

/-- One entry of the list built by `extract_user_info_from_urls`:
`{"website_url": url, "user_info": interactions}`. -/
structure PageExtraction where
  website_url : String
  user_info : List Interaction
  deriving Repr, DecidableEq

/-- One flattened record as built by `format_user_info_to_flattened_json`
(keys "Website URL", "Username", "Bio", "Post Type", "Timestamp",
"Upvotes", "Links"). -/
structure FlatRecord where
  websiteUrl : String
  username : String
  bio : String
  postType : String
  timestamp : String
  upvotes : Int
  links : String
  deriving Repr, DecidableEq

/-- The record built for one interaction in the inner loop of
`format_user_info_to_flattened_json` (app.py lines 80-90). -/
def flattenInteraction (website_url : String) (i : Interaction) : FlatRecord :=
  { websiteUrl := website_url
  , username := i.username.getD ""
  , bio := i.bio.getD ""
  , postType := i.post_type.getD ""
  , timestamp := i.timestamp.getD ""
  , upvotes := i.upvotes.getD 0
  , links := String.intercalate ", " (i.links.getD []) }

/-- Embedding of `format_user_info_to_flattened_json` (app.py lines 73-92): for each
page entry in order, for each of its interactions in order, append one
flattened record. -/
def format_user_info_to_flattened_json : List PageExtraction → List FlatRecord
  | [] => []
  | info :: rest =>
      info.user_info.map (flattenInteraction info.website_url)
        ++ format_user_info_to_flattened_json rest

/-- The outcome of one `firecrawl_app.extract([url], ...)` call:
either the call raises an exception, or it returns a response dict with
a `success` flag, a `status` string and a (possibly defaulted-to-empty)
`data.interactions` list. -/
inductive ExtractOutcome where
  | raises : ExtractOutcome
  | ok (success : Bool) (status : String) (interactions : List Interaction) :
      ExtractOutcome
  deriving Repr, DecidableEq

/-- Embedding of `extract_user_info_from_urls` (app.py lines 47-71), with the
per-URL service call abstracted as the oracle `f`. The single `try`
wraps the whole loop, so on the first outcome `raises` the loop stops
and the list accumulated so far is returned; an accepted URL (success,
status "completed", non-empty interactions) contributes one
`PageExtraction`; any other response is skipped. -/
def extract_user_info_from_urls (f : String → ExtractOutcome) :
    List String → List PageExtraction
  | [] => []
  | url :: rest =>
      match f url with
      | .raises => []
      | .ok success status interactions =>
          if success = true ∧ status = "completed" then
            if interactions ≠ [] then
              ⟨url, interactions⟩ :: extract_user_info_from_urls f rest
            else
              extract_user_info_from_urls f rest
          else
            extract_user_info_from_urls f rest

/-- The `PageExtraction` that URL `u` contributes under oracle `f`, if
any: `some` exactly when the response reports success with status
"completed" and a non-empty interaction list. -/
def acceptedEntry (f : String → ExtractOutcome) (u : String) :
    Option PageExtraction :=
  match f u with
  | .raises => none
  | .ok success status interactions =>
      if success = true ∧ status = "completed" ∧ interactions ≠ [] then
        some ⟨u, interactions⟩
      else
        none

/-- The JSON payload posted by `search_for_urls` (app.py lines 31-38).
`timeout` is in milliseconds, as in the source (`60000`). -/
structure SearchPayload where
  query : String
  limit : Nat
  lang : String
  location : String
  timeout : Nat
  deriving Repr, DecidableEq

/-- One entry of the search response's `data` array; the source only
reads its `url` field (`result["url"]`). -/
structure SearchResult where
  url : String
  deriving Repr, DecidableEq

/-- The parsed search response: HTTP status code plus the parsed body's
`success` flag (`data.get("success")` truthiness; a body lacking the
flag reads as `false`) and `data` array (`data.get("data", [])`). -/
structure SearchResponse where
  status_code : Nat
  success : Bool
  data : List SearchResult
  deriving Repr, DecidableEq

/-- The payload built by `search_for_urls` before posting. -/
def searchPayload (company_description : String) (num_links : Nat) :
    SearchPayload :=
  { query := "quora websites where people are looking for "
      ++ company_description ++ " services"
  , limit := num_links
  , lang := "en"
  , location := "United States"
  , timeout := 60000 }

/-- Embedding of `search_for_urls` (app.py lines 25-45), with the HTTP POST
abstracted as the oracle `respond`: on a 200 status with a true
`success` flag it returns the `url` of each `data` entry in order;
otherwise it falls through to `return []`. -/
def search_for_urls (respond : SearchPayload → SearchResponse)
    (company_description : String) (num_links : Nat) : List String :=
  let response := respond (searchPayload company_description num_links)
  if response.status_code = 200 then
    if response.success then response.data.map (fun r => r.url) else []
  else []

/-- One model record from the listing API; the source reads
`supported_generation_methods` (defaulted to `[]`) and `name`. -/
structure ModelInfo where
  name : String
  supported_generation_methods : List String
  deriving Repr, DecidableEq

/-- Tests whether `needle` occurs as a contiguous sublist. -/
def charsContain (needle : List Char) : List Char → Bool
  | [] => needle.isEmpty
  | c :: rest => needle.isPrefixOf (c :: rest) || charsContain needle rest

/-- Python's substring test `needle in hay`. -/
def strContains (hay needle : String) : Bool :=
  charsContain needle.toList hay.toList

/-- Split a character list on `'/'`; always yields at least one
(possibly empty) component, like Python's `str.split("/")`. -/
def splitOnSlash : List Char → List (List Char)
  | [] => [[]]
  | c :: rest =>
      let r := splitOnSlash rest
      if c = '/' then [] :: r
      else
        match r with
        | [] => [[c]]
        | s :: ss => (c :: s) :: ss

/-- Python `name.split("/")[-1]`: the last component of a "/"-separated name. -/
def modelDisplayName (name : String) : String :=
  match (splitOnSlash name.toList).getLast? with
  | some s => ⟨s⟩
  | none => name

/-- Embedding of `list_available_gemini_models` (app.py lines 116-129), with the
listing call abstracted: `none` models a raised exception (caught,
returning `[]`); otherwise keep, in order, each model supporting
`generateContent` or `createContent` whose name is non-empty, reduced
to its last "/"-component. -/
def list_available_gemini_models (listing : Option (List ModelInfo)) :
    List String :=
  match listing with
  | none => []
  | some models =>
      models.filterMap fun m =>
        if m.supported_generation_methods.contains "generateContent"
            || m.supported_generation_methods.contains "createContent" then
          if m.name ≠ "" then some (modelDisplayName m.name) else none
        else none

/-- The fixed priority list in `choose_gemini_model` (app.py 135-142). -/
def priorityModels : List String :=
  ["gemini-2.5-flash", "gemini-2.5-pro", "gemini-2.0-flash",
   "gemini-2.0-pro", "gemini-1.5-pro", "gemini-1.5-flash"]

/-- The `for pid in priority` loop (app.py 143-146): for the first
priority id contained in some available name, return the first such
available name (`next(a for a in available if pid in a)`). -/
def findPriorityMatch (available : List String) :
    List String → Option String
  | [] => none
  | pid :: rest =>
      if available.any (fun a => strContains a pid) then
        available.find? (fun a => strContains a pid)
      else
        findPriorityMatch available rest

/-- The auto branch of `choose_gemini_model`: first priority match over
the available names, else the hard-coded default "gemini-1.5-pro". -/
def choose_from_available (available : List String) : String :=
  match findPriorityMatch available priorityModels with
  | some a => a
  | none => "gemini-1.5-pro"

/-- Embedding of `choose_gemini_model` (app.py lines 131-146), with the model
listing abstracted as in `list_available_gemini_models`: any choice
other than the auto sentinel is returned unchanged; otherwise resolve
from the available models. -/
def choose_gemini_model (listing : Option (List ModelInfo))
    (choice : String) : String :=
  if choice ≠ "Auto (recommended)" then choice
  else choose_from_available (list_available_gemini_models listing)

end LeadGen

namespace LeadGen

theorem format_nil : format_user_info_to_flattened_json [] = [] := rfl

theorem format_cons (p : PageExtraction) (rest : List PageExtraction) :
    format_user_info_to_flattened_json (p :: rest)
      = p.user_info.map (flattenInteraction p.website_url)
          ++ format_user_info_to_flattened_json rest := rfl

/-- C1: the number of flattened records equals the sum, over all page
entries, of the number of interactions: no record is lost, none is
duplicated. -/
theorem format_length (l : List PageExtraction) :
    (format_user_info_to_flattened_json l).length
      = (l.map fun p => p.user_info.length).sum := by
  induction l with
  | nil => rfl
  | cons p rest ih =>
      simp [format_cons, ih]

/-- C4: flattening preserves ordering: the output record at global
position (number of interactions of the pages before page `j`) + `k`
is exactly the record built from page `j`'s URL and its `k`-th
interaction. -/
theorem format_index (l : List PageExtraction) (j k : Nat)
    (page : PageExtraction) (inter : Interaction)
    (hj : l[j]? = some page) (hk : page.user_info[k]? = some inter) :
    (format_user_info_to_flattened_json l)[((l.take j).map fun p => p.user_info.length).sum + k]?
      = some (flattenInteraction page.website_url inter) := by
  induction l generalizing j with
  | nil => simp at hj
  | cons p rest ih =>
      cases j with
      | zero =>
          have hj' : p = page := by simpa using hj
          subst hj'
          have hk' : k < p.user_info.length := by
            rcases List.getElem?_eq_some.mp hk with ⟨h, _⟩
            exact h
          have hk'' : k <
              (p.user_info.map (flattenInteraction p.website_url)).length := by
            simpa using hk'
          simp only [List.take_zero, List.map_nil, List.sum_nil, Nat.zero_add,
            format_cons]
          rw [List.getElem?_append, if_pos hk'', List.getElem?_map, hk]
          rfl
      | succ j =>
          simp only [List.getElem?_cons_succ] at hj
          have hlen : (p.user_info.map (flattenInteraction p.website_url)).length
              = p.user_info.length := by simp
          simp only [List.take_succ_cons, List.map_cons, List.sum_cons, format_cons]
          rw [Nat.add_assoc, List.getElem?_append, hlen, if_neg (by omega),
            Nat.add_sub_cancel_left]
          exact ih j hj

/-- Witness for C4 at a concrete input. -/
theorem format_index_witness :
    (format_user_info_to_flattened_json
        [⟨"u0", [⟨some "a", none, none, none, none, none⟩]⟩,
         ⟨"u1", [⟨some "b", none, none, none, none, none⟩,
                 ⟨some "c", none, none, none, none, none⟩]⟩])[2]?
      = some (flattenInteraction "u1" ⟨some "c", none, none, none, none, none⟩) :=
  format_index
    [⟨"u0", [⟨some "a", none, none, none, none, none⟩]⟩,
     ⟨"u1", [⟨some "b", none, none, none, none, none⟩,
             ⟨some "c", none, none, none, none, none⟩]⟩]
    1 1 ⟨"u1", [⟨some "b", none, none, none, none, none⟩,
                ⟨some "c", none, none, none, none, none⟩]⟩
    ⟨some "c", none, none, none, none, none⟩ rfl rfl

theorem intercalate_nil (s : String) : String.intercalate s [] = "" := rfl

/-- C5: for every interaction dict, each field is taken with its own
default — a missing `username`/`bio`/`post_type`/`timestamp` becomes
`""`, a missing `upvotes` becomes `0` — and the `links` list (defaulting
to `[]`) is joined with the delimiter ", ". Each per-field implication
leaves the other fields arbitrary. -/
theorem format_defaults (url : String) (i : Interaction) :
    format_user_info_to_flattened_json [⟨url, [i]⟩]
        = [⟨url, i.username.getD "", i.bio.getD "", i.post_type.getD "",
            i.timestamp.getD "", i.upvotes.getD 0,
            String.intercalate ", " (i.links.getD [])⟩]
    ∧ (i.username = none →
        (format_user_info_to_flattened_json [⟨url, [i]⟩]).map
          (fun r => r.username) = [""])
    ∧ (i.bio = none →
        (format_user_info_to_flattened_json [⟨url, [i]⟩]).map
          (fun r => r.bio) = [""])
    ∧ (i.post_type = none →
        (format_user_info_to_flattened_json [⟨url, [i]⟩]).map
          (fun r => r.postType) = [""])
    ∧ (i.timestamp = none →
        (format_user_info_to_flattened_json [⟨url, [i]⟩]).map
          (fun r => r.timestamp) = [""])
    ∧ (i.upvotes = none →
        (format_user_info_to_flattened_json [⟨url, [i]⟩]).map
          (fun r => r.upvotes) = [0])
    ∧ (i.links = none →
        (format_user_info_to_flattened_json [⟨url, [i]⟩]).map
          (fun r => r.links) = [""]) := by
  constructor
  · simp [format_user_info_to_flattened_json, flattenInteraction]
  refine ⟨fun h => ?_, fun h => ?_, fun h => ?_, fun h => ?_,
    fun h => ?_, fun h => ?_⟩ <;>
    simp [format_user_info_to_flattened_json, flattenInteraction, h,
      intercalate_nil]

/-- Witness for C5 at a concrete input, discharging every per-field
implication. -/
theorem format_defaults_witness :
    format_user_info_to_flattened_json
        [⟨"u", [⟨none, none, none, none, none, none⟩]⟩]
      = [⟨"u", "", "", "", "", 0, ""⟩]
    ∧ (format_user_info_to_flattened_json
          [⟨"u", [⟨none, none, none, none, none, none⟩]⟩]).map
        (fun r => r.username) = [""]
    ∧ (format_user_info_to_flattened_json
          [⟨"u", [⟨none, none, none, none, none, none⟩]⟩]).map
        (fun r => r.bio) = [""]
    ∧ (format_user_info_to_flattened_json
          [⟨"u", [⟨none, none, none, none, none, none⟩]⟩]).map
        (fun r => r.postType) = [""]
    ∧ (format_user_info_to_flattened_json
          [⟨"u", [⟨none, none, none, none, none, none⟩]⟩]).map
        (fun r => r.timestamp) = [""]
    ∧ (format_user_info_to_flattened_json
          [⟨"u", [⟨none, none, none, none, none, none⟩]⟩]).map
        (fun r => r.upvotes) = [0]
    ∧ (format_user_info_to_flattened_json
          [⟨"u", [⟨none, none, none, none, none, none⟩]⟩]).map
        (fun r => r.links) = [""] :=
  have h := format_defaults "u" ⟨none, none, none, none, none, none⟩
  ⟨h.1, h.2.1 rfl, h.2.2.1 rfl, h.2.2.2.1 rfl, h.2.2.2.2.1 rfl,
   h.2.2.2.2.2.1 rfl, h.2.2.2.2.2.2 rfl⟩

/-- C6: when no service call raises, the returned page entries are
exactly the accepted URLs (success, status "completed", non-empty
interactions) in input order; a successful URL with an empty
interaction list contributes nothing. -/
theorem extract_order (f : String → ExtractOutcome) (urls : List String)
    (h : ∀ u ∈ urls, f u ≠ ExtractOutcome.raises) :
    extract_user_info_from_urls f urls = urls.filterMap (acceptedEntry f) := by
  induction urls with
  | nil => rfl
  | cons u rest ih =>
      have hu : f u ≠ ExtractOutcome.raises := h u (List.mem_cons_self u rest)
      have hrest : ∀ v ∈ rest, f v ≠ ExtractOutcome.raises :=
        fun v hv => h v (List.mem_cons_of_mem u hv)
      cases hfu : f u with
      | raises => exact absurd hfu hu
      | ok success status interactions =>
          simp only [extract_user_info_from_urls, List.filterMap_cons,
            acceptedEntry, hfu]
          by_cases h1 : success = true ∧ status = "completed"
          · by_cases h2 : interactions ≠ []
            · simp [h1, h2, ih hrest]
            · simp [h1, h2, ih hrest]
          · have h1' : ¬(success = true ∧ status = "completed"
                ∧ interactions ≠ []) := by tauto
            simp [h1, h1', ih hrest]

/-- Witness for C6 at a concrete input: URL "b" succeeds with an empty
interaction list and is dropped; "a" and "c" succeed and appear in
input order. -/
theorem extract_order_witness :
    (∀ u ∈ ["a", "b", "c"],
        (fun u => if u = "b" then ExtractOutcome.ok true "completed" []
                  else .ok true "completed"
                    [⟨some "alice", none, none, none, none, none⟩]) u
          ≠ ExtractOutcome.raises)
    ∧ extract_user_info_from_urls
        (fun u => if u = "b" then ExtractOutcome.ok true "completed" []
                  else .ok true "completed"
                    [⟨some "alice", none, none, none, none, none⟩])
        ["a", "b", "c"]
      = ["a", "b", "c"].filterMap
          (acceptedEntry
            (fun u => if u = "b" then ExtractOutcome.ok true "completed" []
                      else .ok true "completed"
                        [⟨some "alice", none, none, none, none, none⟩])) :=
  ⟨by decide,
   extract_order
     (fun u => if u = "b" then ExtractOutcome.ok true "completed" []
               else .ok true "completed"
                 [⟨some "alice", none, none, none, none, none⟩])
     ["a", "b", "c"] (by decide)⟩

/-- C10: if the call for URL `u` raises and no earlier call raised, the
function returns exactly the entries accumulated for the URLs before
`u`; the exception is swallowed (the embedding is a total function, the
source's `except Exception: pass` returns the accumulated list). -/
theorem extract_exception_keeps_earlier (f : String → ExtractOutcome)
    (pre post : List String) (u : String)
    (hpre : ∀ v ∈ pre, f v ≠ ExtractOutcome.raises)
    (hu : f u = ExtractOutcome.raises) :
    extract_user_info_from_urls f (pre ++ u :: post)
      = extract_user_info_from_urls f pre := by
  induction pre with
  | nil => simp [extract_user_info_from_urls, hu]
  | cons v rest ih =>
      have hv : f v ≠ ExtractOutcome.raises :=
        hpre v (List.mem_cons_self v rest)
      cases hfv : f v with
      | raises => exact absurd hfv hv
      | ok success status interactions =>
          simp only [List.cons_append, extract_user_info_from_urls, hfv,
            List.append_eq,
            ih (fun w hw => hpre w (List.mem_cons_of_mem v hw))]

/-- Witness for C10 at a concrete input: the call for "b" raises, so the
result is what was accumulated for ["a"] alone, regardless of "c". -/
theorem extract_exception_keeps_earlier_witness :
    ((∀ v ∈ ["a"],
        (fun u => if u = "b" then ExtractOutcome.raises
                  else .ok true "completed"
                    [⟨some "alice", none, none, none, none, none⟩]) v
          ≠ ExtractOutcome.raises)
      ∧ (fun u => if u = "b" then ExtractOutcome.raises
                  else .ok true "completed"
                    [⟨some "alice", none, none, none, none, none⟩]) "b"
          = ExtractOutcome.raises)
    ∧ extract_user_info_from_urls
        (fun u => if u = "b" then ExtractOutcome.raises
                  else .ok true "completed"
                    [⟨some "alice", none, none, none, none, none⟩])
        (["a"] ++ "b" :: ["c"])
      = extract_user_info_from_urls
          (fun u => if u = "b" then ExtractOutcome.raises
                    else .ok true "completed"
                      [⟨some "alice", none, none, none, none, none⟩])
          ["a"] :=
  ⟨⟨by decide, by decide⟩,
   extract_exception_keeps_earlier
     (fun u => if u = "b" then ExtractOutcome.raises
               else .ok true "completed"
                 [⟨some "alice", none, none, none, none, none⟩])
     ["a"] ["c"] "b" (by decide) (by decide)⟩

/-- C2: evaluation at the failing input. The call for "u1" raises while
"u2" would succeed with one interaction, yet the function returns the
empty list: the `try` wraps the whole loop, so the exception aborts
processing of every subsequent URL instead of skipping only "u1". -/
theorem extract_abort_on_exception :
    extract_user_info_from_urls
        (fun u => if u = "u1" then ExtractOutcome.raises
                  else .ok true "completed"
                    [⟨some "alice", none, none, none, none, none⟩])
        ["u1", "u2"]
      = []
    ∧ (fun u => if u = "u1" then ExtractOutcome.raises
                else .ok true "completed"
                  [⟨some "alice", none, none, none, none, none⟩]) "u2"
      = ExtractOutcome.ok true "completed"
          [⟨some "alice", none, none, none, none, none⟩] := by
  constructor <;> decide

/-- C3: if the HTTP response has a non-200 status code or its body
lacks a true success flag, `search_for_urls` returns the empty list;
the embedding is a total function, so no exception is raised. -/
theorem search_failure_empty (respond : SearchPayload → SearchResponse)
    (topic : String) (n : Nat)
    (h : (respond (searchPayload topic n)).status_code ≠ 200
        ∨ (respond (searchPayload topic n)).success = false) :
    search_for_urls respond topic n = [] := by
  unfold search_for_urls
  rcases h with h | h
  · simp [h]
  · by_cases h2 : (respond (searchPayload topic n)).status_code = 200 <;>
      simp [h2, h]

/-- Witness for C3 at a concrete input: a 500 status yields `[]`. -/
theorem search_failure_empty_witness :
    (((fun _ => SearchResponse.mk 500 true [⟨"https://x"⟩])
          (searchPayload "ai" 3)).status_code ≠ 200
      ∨ ((fun _ => SearchResponse.mk 500 true [⟨"https://x"⟩])
          (searchPayload "ai" 3)).success = false)
    ∧ search_for_urls (fun _ => SearchResponse.mk 500 true [⟨"https://x"⟩])
        "ai" 3 = [] :=
  ⟨Or.inl (by decide),
   search_failure_empty (fun _ => SearchResponse.mk 500 true [⟨"https://x"⟩])
     "ai" 3 (Or.inl (by decide))⟩

/-- C7: the posted payload has query
"quora websites where people are looking for <topic> services",
limit = the caller's count, lang "en", location "United States" and a
60000 ms (60 s) timeout; on a successful response the url of each
result entry is returned in the service's order. -/
theorem search_payload_and_results (respond : SearchPayload → SearchResponse)
    (topic : String) (n : Nat) :
    (searchPayload topic n).query
        = "quora websites where people are looking for " ++ topic ++ " services"
    ∧ (searchPayload topic n).limit = n
    ∧ (searchPayload topic n).lang = "en"
    ∧ (searchPayload topic n).location = "United States"
    ∧ (searchPayload topic n).timeout = 60000
    ∧ ((respond (searchPayload topic n)).status_code = 200 →
        (respond (searchPayload topic n)).success = true →
          search_for_urls respond topic n
            = ((respond (searchPayload topic n)).data).map (fun r => r.url)) := by
  refine ⟨rfl, rfl, rfl, rfl, rfl, fun h1 h2 => ?_⟩
  simp [search_for_urls, h1, h2]

/-- Witness for C7 at a concrete input, with the success hypotheses
discharged. -/
theorem search_payload_and_results_witness :
    (searchPayload "ai" 3).query
        = "quora websites where people are looking for " ++ "ai" ++ " services"
    ∧ (searchPayload "ai" 3).limit = 3
    ∧ (searchPayload "ai" 3).lang = "en"
    ∧ (searchPayload "ai" 3).location = "United States"
    ∧ (searchPayload "ai" 3).timeout = 60000
    ∧ search_for_urls (fun _ => SearchResponse.mk 200 true
          [⟨"https://a"⟩, ⟨"https://b"⟩]) "ai" 3
        = (((fun _ => SearchResponse.mk 200 true [⟨"https://a"⟩, ⟨"https://b"⟩])
            (searchPayload "ai" 3)).data).map (fun r => r.url) :=
  have h := search_payload_and_results
    (fun _ => SearchResponse.mk 200 true [⟨"https://a"⟩, ⟨"https://b"⟩]) "ai" 3
  ⟨h.1, h.2.1, h.2.2.1, h.2.2.2.1, h.2.2.2.2.1, h.2.2.2.2.2 rfl rfl⟩

/-- C8: with the auto sentinel chosen and available models
["gemini-2.5-flash-001", "models/gemini-1.5-pro"], the priority entry
"gemini-2.5-flash" matches "gemini-2.5-flash-001" first, so that name
is returned — both through `choose_gemini_model` on a listing that
offers those two models, and directly on the claim's available list. -/
theorem choose_auto_prefers_flash :
    choose_gemini_model
        (some [⟨"gemini-2.5-flash-001", ["generateContent"]⟩,
               ⟨"models/gemini-1.5-pro", ["generateContent"]⟩])
        "Auto (recommended)"
      = "gemini-2.5-flash-001"
    ∧ choose_from_available ["gemini-2.5-flash-001", "models/gemini-1.5-pro"]
      = "gemini-2.5-flash-001" := by
  constructor <;> decide

/-- C9: a choice other than the auto sentinel is returned unchanged; a
failed listing yields an empty available set, and with no priority
match the hard-coded default "gemini-1.5-pro" is returned. -/
theorem choose_explicit_and_fallback (listing : Option (List ModelInfo))
    (choice : String) (h : choice ≠ "Auto (recommended)") :
    choose_gemini_model listing choice = choice
    ∧ choose_gemini_model none "Auto (recommended)" = "gemini-1.5-pro"
    ∧ list_available_gemini_models none = [] := by
  refine ⟨?_, by decide, rfl⟩
  simp [choose_gemini_model, h]

/-- Witness for C9 at a concrete input. -/
theorem choose_explicit_and_fallback_witness :
    ("gemini-1.5-flash" ≠ "Auto (recommended)")
    ∧ choose_gemini_model none "gemini-1.5-flash" = "gemini-1.5-flash"
    ∧ choose_gemini_model none "Auto (recommended)" = "gemini-1.5-pro"
    ∧ list_available_gemini_models none = [] :=
  have h := choose_explicit_and_fallback none "gemini-1.5-flash" (by decide)
  ⟨by decide, h.1, h.2.1, h.2.2⟩

end LeadGen
